import Mathlib

/-
  Verification of the HDF5 reference-conversion and blob-indirection layer
  (src/H5Tref.c and the native VOL blob callbacks).

  Byte buffers are shallowly embedded as `List Nat` (each element one byte);
  multi-byte fields are read and written little-endian, matching the
  UINT32ENCODE / UINT32DECODE / H5F_addr_encode / H5F_addr_decode macros.
  Backend effects (global heap, H5R encode) are passed in as explicit
  oracles, and calls into the Blob Store are recorded as event traces.
-/

namespace HDF5

/-- Little-endian encoding of `a` on `n` bytes (UINT32ENCODE and
H5F_addr_encode emit the value least-significant byte first). -/
def encLE : Nat → Nat → List Nat
  | 0, _ => []
  | n + 1, a => (a % 256) :: encLE n (a / 256)

/-- Little-endian decoding of the first `n` bytes of `l` (UINT32DECODE and
H5F_addr_decode read the value least-significant byte first; bytes past the
end of the list read as 0). -/
def decLE : Nat → List Nat → Nat
  | 0, _ => 0
  | _ + 1, [] => 0
  | n + 1, b :: bs => b + 256 * decLE n bs

/-- Store `new` at the front of buffer `old`, leaving the tail of `old`
beyond `new.length` untouched (pointer-based in-place store in C). -/
def overwriteFront (new old : List Nat) : List Nat :=
  new ++ old.drop new.length

/-- H5_SIZEOF_UINT32_T. -/
def H5_SIZEOF_UINT32_T : Nat := 4

/-- Modelled from the spec: H5R_ENCODE_HEADER_SIZE (H5Rpkg.h is not under
src/); the on-disk generic record starts with a 1-byte kind and a 1-byte
flags field, so the encode header is 2 bytes. -/
def H5R_ENCODE_HEADER_SIZE : Nat := 2

/-- Modelled from the spec: H5R_IS_EXTERNAL (H5Rpkg.h is not under src/);
the external flag is a single bit of the 1-byte flags field. -/
def H5R_IS_EXTERNAL : Nat := 1

/-- H5R_type_t enumerator H5R_BADTYPE (invalid low sentinel). -/
def H5R_BADTYPE : Int := -1

/-- H5R_type_t enumerator H5R_OBJECT1 (legacy object reference). -/
def H5R_OBJECT1 : Int := 0

/-- H5R_type_t enumerator H5R_DATASET_REGION1 (legacy region reference). -/
def H5R_DATASET_REGION1 : Int := 1

/-- H5R_type_t enumerator H5R_OBJECT2 (generic object reference). -/
def H5R_OBJECT2 : Int := 2

/-- H5R_type_t enumerator H5R_DATASET_REGION2 (generic region reference). -/
def H5R_DATASET_REGION2 : Int := 3

/-- H5R_type_t enumerator H5R_ATTR (attribute reference). -/
def H5R_ATTR : Int := 4

/-- H5R_type_t enumerator H5R_MAXTYPE (invalid high sentinel). -/
def H5R_MAXTYPE : Int := 5

/-- Error kinds raised by the converters and the native blob callbacks. -/
inductive RefErr
  | badValue
  | cantGet
  | sizeMismatch
  | cantSet
  | cantRemove
deriving DecidableEq

/-- Result of a converter call: the produced destination buffer or an error. -/
inductive RefOut
  | ok (buf : List Nat)
  | err (e : RefErr)
deriving DecidableEq

/- ------------------------------------------------------------------ -/
/- Native VOL blob callbacks (src/unnamed/part_000)                    -/
/- ------------------------------------------------------------------ -/

/-- H5VL__native_blob_specific, H5VL_BLOB_SETNULL case: writes a 0 length,
a nil (0) address of `addrSize` bytes, and a 0 index at the front of the
blob id buffer. -/
def H5VL__native_blob_setnull (addrSize : Nat) (id : List Nat) : List Nat :=
  overwriteFront (encLE 4 0 ++ encLE addrSize 0 ++ encLE 4 0) id

/-- H5VL__native_blob_specific, H5VL_BLOB_ISNULL case: skips the 4-byte
sequence length, decodes the heap address, and reports whether it is 0. -/
def H5VL__native_blob_isnull (addrSize : Nat) (id : List Nat) : Bool :=
  if decLE addrSize (id.drop 4) = 0 then true else false

/-- H5VL__native_blob_specific, H5VL_BLOB_DELETE case: decodes the 4-byte
sequence length; only when it is positive decodes the heap {address, index}
and, only when the address is positive, asks the backend to remove the heap
object (`heapRemoveOk` tells whether H5HG_remove succeeds).  Returns the
success flag and the list of heap removals attempted. -/
def H5VL__native_blob_delete (addrSize : Nat) (heapRemoveOk : Nat → Nat → Bool)
    (id : List Nat) : Bool × List (Nat × Nat) :=
  let seq_len := decLE 4 id
  if 0 < seq_len then
    let rest := id.drop 4
    let addr := decLE addrSize rest
    let idx := decLE 4 (rest.drop addrSize)
    if 0 < addr then
      (heapRemoveOk addr idx, [(addr, idx)])
    else (true, [])
  else (true, [])

/-- H5VL__native_blob_get: skips the 4-byte sequence length, decodes the
heap {address, index}; when the address is positive reads the heap object
into the destination buffer (`heapRead` is H5HG_read, `none` = failure),
otherwise leaves the destination exactly as pre-initialized.  Returns the
resulting buffer (or `none` on read failure) and the heap reads attempted. -/
def H5VL__native_blob_get (addrSize : Nat) (heapRead : Nat → Nat → Option (List Nat))
    (id : List Nat) (buf : List Nat) : Option (List Nat) × List (Nat × Nat) :=
  let vl := id.drop 4
  let addr := decLE addrSize vl
  let idx := decLE 4 (vl.drop addrSize)
  if 0 < addr then
    match heapRead addr idx with
    | none => (none, [(addr, idx)])
    | some data => (some (overwriteFront data buf), [(addr, idx)])
  else (some buf, [])

/- helper lemmas on the byte codecs -/

theorem encLE_length (n a : Nat) : (encLE n a).length = n := by
  induction n generalizing a with
  | zero => rfl
  | succ k ih => simp [encLE, ih]

theorem drop_encLE_append (n a : Nat) (t : List Nat) :
    ((encLE n a) ++ t).drop n = t := by
  exact List.drop_left' (encLE_length n a)

theorem decLE_encLE_zero (n : Nat) (rest : List Nat) :
    decLE n (encLE n 0 ++ rest) = 0 := by
  induction n with
  | zero => rfl
  | succ k ih => simp [encLE, decLE, ih]

theorem setnull_addr_zero (addrSize : Nat) (id : List Nat) :
    decLE addrSize ((H5VL__native_blob_setnull addrSize id).drop 4) = 0 := by
  unfold H5VL__native_blob_setnull overwriteFront
  rw [List.append_assoc, List.append_assoc, drop_encLE_append 4 0]
  exact decLE_encLE_zero addrSize _

/-- C9: applying specific(SETNULL) to a blob id yields a record on which
specific(ISNULL) returns true, and on which the blob get callback is a
no-op success: the destination buffer comes back exactly as the caller
pre-initialized it and no heap read is attempted. -/
theorem blob_setnull_isnull_get_noop (addrSize : Nat)
    (heapRead : Nat → Nat → Option (List Nat)) (id buf : List Nat) :
    H5VL__native_blob_isnull addrSize (H5VL__native_blob_setnull addrSize id) = true ∧
    H5VL__native_blob_get addrSize heapRead (H5VL__native_blob_setnull addrSize id) buf
      = (some buf, []) := by
  have h := setnull_addr_zero addrSize id
  constructor
  · simp [H5VL__native_blob_isnull, h]
  · simp [H5VL__native_blob_get, h]

/-- C8 (amended): the blob DELETE callback is a no-op success when the
4-byte length prefix of the id is 0 or the embedded heap address is 0;
when both are positive it attempts exactly one heap removal of the decoded
{address, index}, succeeding iff the backend removal succeeds. -/
theorem blob_delete_spec (addrSize : Nat) (heapRemoveOk : Nat → Nat → Bool)
    (id : List Nat) :
    (decLE 4 id = 0 →
      H5VL__native_blob_delete addrSize heapRemoveOk id = (true, [])) ∧
    (0 < decLE 4 id → decLE addrSize (id.drop 4) = 0 →
      H5VL__native_blob_delete addrSize heapRemoveOk id = (true, [])) ∧
    (0 < decLE 4 id → 0 < decLE addrSize (id.drop 4) →
      H5VL__native_blob_delete addrSize heapRemoveOk id =
        (heapRemoveOk (decLE addrSize (id.drop 4)) (decLE 4 ((id.drop 4).drop addrSize)),
         [(decLE addrSize (id.drop 4), decLE 4 ((id.drop 4).drop addrSize))])) := by
  refine ⟨?_, ?_, ?_⟩
  · intro h
    simp [H5VL__native_blob_delete, h]
  · intro h1 h2
    simp [H5VL__native_blob_delete, h1, h2]
  · intro h1 h2
    simp [H5VL__native_blob_delete, h1, h2]

/-- C8 witness: a concrete id with length prefix 1 and heap address 5,
index 2 goes through the backend removal path. -/
theorem blob_delete_spec_witness :
    0 < decLE 4 [1, 0, 0, 0, 5, 0, 0, 0, 0, 0, 0, 0, 2, 0, 0, 0] ∧
    0 < decLE 8 ([1, 0, 0, 0, 5, 0, 0, 0, 0, 0, 0, 0, 2, 0, 0, 0].drop 4) ∧
    H5VL__native_blob_delete 8 (fun _ _ => true)
      [1, 0, 0, 0, 5, 0, 0, 0, 0, 0, 0, 0, 2, 0, 0, 0] = (true, [(5, 2)]) :=
  ⟨by decide, by decide, by
    exact (blob_delete_spec 8 (fun _ _ => true)
      [1, 0, 0, 0, 5, 0, 0, 0, 0, 0, 0, 0, 2, 0, 0, 0]).2.2 (by decide) (by decide)⟩

/-- C8 counterexample: an id whose 4-byte length prefix is 0 but whose
embedded heap address is 5 (non-zero).  The DELETE callback succeeds
without instructing the backend to reclaim anything, contradicting the
claim that a non-zero address always triggers a heap removal. -/
theorem blob_delete_zero_len_no_reclaim :
    decLE 8 ([0, 0, 0, 0, 5, 0, 0, 0, 0, 0, 0, 0, 0, 0, 0, 0].drop 4) = 5 ∧
    H5VL__native_blob_delete 8 (fun _ _ => false)
      [0, 0, 0, 0, 5, 0, 0, 0, 0, 0, 0, 0, 0, 0, 0, 0] = (true, []) := by
  decide

/- ------------------------------------------------------------------ -/
/- Location state machine (H5T__ref_set_loc, src/H5Tref.c)             -/
/- ------------------------------------------------------------------ -/

/-- The container / file object (H5F_t) with the fields this layer uses:
`ptr` is the pointer identity, `sharedId` the identity of `f->shared`,
`sizeofAddr` = H5F_SIZEOF_ADDR(f), `heapIdSize` = H5HG_HEAP_ID_SIZE(f),
`blobIdSize` and `tokenSize` the container-info addressing parameters, and
`contInfoOk` tells whether H5F__get_cont_info succeeds on this file. -/
structure H5F where
  ptr : Nat
  sharedId : Nat
  sizeofAddr : Nat
  heapIdSize : Nat
  blobIdSize : Nat
  tokenSize : Nat
  contInfoOk : Bool
deriving DecidableEq

/-- H5T_loc_t: the location of a reference datatype. -/
inductive H5T_loc
  | badloc
  | memory
  | disk
  | maxloc
deriving DecidableEq

/-- Identity of a conversion function bound into the descriptor (the C
code stores raw function pointers; only their identity matters here). -/
inductive FuncId
  | memGetsize
  | memRead
  | memWrite
  | diskGetsize
  | diskRead
  | diskWrite
  | objDiskGetsize
  | objDiskRead
  | dsetregDiskGetsize
  | dsetregDiskRead
deriving DecidableEq

/-- The reference-relevant state of a datatype descriptor:
`dt->shared->u.atomic.u.r` (loc, f, rtype, the flag recording an opaque
generic handle, and the three bound functions) together with
`dt->shared->size` and `dt->shared->u.atomic.prec`. -/
structure H5T_ref_state where
  loc : H5T_loc
  f : Option H5F
  rtype : Int
  opq : Bool
  size : Nat
  prec : Nat
  getsize : Option FuncId
  read : Option FuncId
  write : Option FuncId
deriving DecidableEq

/-- Modelled from the spec: H5R_REF_BUF_SIZE (H5Rpublic.h is not under
src/), the fixed in-memory width of a generic reference handle. -/
def H5T_REF_MEM_SIZE : Nat := 64

/-- Modelled from the spec: H5R_OBJ_REF_BUF_SIZE, the fixed in-memory
width of a legacy object reference (one file address). -/
def H5T_REF_OBJ_MEM_SIZE : Nat := 8

/-- Modelled from the spec: H5R_DSET_REG_REF_BUF_SIZE, the fixed
in-memory width of a legacy region reference. -/
def H5T_REF_DSETREG_MEM_SIZE : Nat := 12

/-- The zeroed fixed reference probed in H5T__ref_set_loc: only its kind
tag and token size are set before the trial encode. -/
structure fixedHref where
  type : Int
  token_size : Nat
deriving DecidableEq

/-- Modelled from the spec: `H5R__encode` (H5R is not under src/) called
with a null destination buffer returns the minimum encode size of the
given fixed reference: the 2-byte encode header, a 1-byte token length,
and the token itself. -/
def H5R_encode_size_probe (r : fixedHref) : Nat :=
  H5R_ENCODE_HEADER_SIZE + 1 + r.token_size

/-- H5T__ref_set_loc: sets the location of a reference datatype to be
either on disk or in memory.  Returns `some true` when the location
changed, `some false` when it was already the requested one, `none` on
failure, paired with the descriptor state after the call.  The HDassert
on a present file for the disk case is modelled as a failure.  (The C
code stages its updates: it first stores `loc` and `f`, then the
branch-specific fields; the records below combine both stores.) -/
def H5T__ref_set_loc (dt : H5T_ref_state) (f : Option H5F) (loc : H5T_loc) :
    Option Bool × H5T_ref_state :=
  if loc = dt.loc ∧ f = dt.f then (some false, dt)
  else
    match loc with
    | H5T_loc.memory =>
      if dt.opq then
        (some true, { dt with
          loc := H5T_loc.memory, f := f,
          size := H5T_REF_MEM_SIZE, prec := 8 * H5T_REF_MEM_SIZE,
          getsize := some FuncId.memGetsize, read := some FuncId.memRead,
          write := some FuncId.memWrite })
      else if dt.rtype = H5R_OBJECT1 then
        (some true, { dt with
          loc := H5T_loc.memory, f := f,
          size := H5T_REF_OBJ_MEM_SIZE, prec := 8 * H5T_REF_OBJ_MEM_SIZE,
          getsize := none, read := none, write := none })
      else if dt.rtype = H5R_DATASET_REGION1 then
        (some true, { dt with
          loc := H5T_loc.memory, f := f,
          size := H5T_REF_DSETREG_MEM_SIZE, prec := 8 * H5T_REF_DSETREG_MEM_SIZE,
          getsize := none, read := none, write := none })
      else (some true, { dt with loc := H5T_loc.memory, f := f })
    | H5T_loc.disk =>
      match f with
      | none => (none, dt)
      | some fv =>
        if dt.rtype = H5R_OBJECT1 then
          (some true, { dt with
            loc := H5T_loc.disk, f := some fv,
            size := fv.sizeofAddr, prec := 8 * fv.sizeofAddr,
            getsize := some FuncId.objDiskGetsize, read := some FuncId.objDiskRead,
            write := none })
        else if dt.rtype = H5R_DATASET_REGION1 then
          (some true, { dt with
            loc := H5T_loc.disk, f := some fv,
            size := fv.heapIdSize, prec := 8 * fv.heapIdSize,
            getsize := some FuncId.dsetregDiskGetsize, read := some FuncId.dsetregDiskRead,
            write := none })
        else
          if fv.contInfoOk then
            (some true, { dt with
              loc := H5T_loc.disk, f := some fv,
              size := max (H5_SIZEOF_UINT32_T + H5R_ENCODE_HEADER_SIZE + fv.blobIdSize)
                (H5R_encode_size_probe { type := H5R_OBJECT2, token_size := fv.tokenSize }),
              prec := 8 * max (H5_SIZEOF_UINT32_T + H5R_ENCODE_HEADER_SIZE + fv.blobIdSize)
                (H5R_encode_size_probe { type := H5R_OBJECT2, token_size := fv.tokenSize }),
              getsize := some FuncId.diskGetsize, read := some FuncId.diskRead,
              write := some FuncId.diskWrite })
          else (none, { dt with loc := H5T_loc.disk, f := some fv })
    | H5T_loc.badloc =>
      (some true, { dt with
        loc := H5T_loc.badloc, f := none,
        getsize := none, read := none, write := none })
    | H5T_loc.maxloc => (none, dt)

/-- Helper: outside the no-change guard, H5T__ref_set_loc never returns
the "unchanged" verdict. -/
theorem set_loc_ne_false (dt : H5T_ref_state) (f : Option H5F) (loc : H5T_loc)
    (h : ¬(loc = dt.loc ∧ f = dt.f)) :
    (H5T__ref_set_loc dt f loc).1 ≠ some false := by
  unfold H5T__ref_set_loc
  rw [if_neg h]
  cases loc <;> (try cases f) <;> (repeat' split) <;> simp

/-- Helper: after any H5T__ref_set_loc call, either the branch taken
assigned a size and set the precision to 8 times it, or both the size and
precision fields are those of the initial descriptor. -/
theorem set_loc_prec_aux (dt : H5T_ref_state) (f : Option H5F) (loc : H5T_loc) :
    (H5T__ref_set_loc dt f loc).2.prec = 8 * (H5T__ref_set_loc dt f loc).2.size ∨
    ((H5T__ref_set_loc dt f loc).2.size = dt.size ∧
      (H5T__ref_set_loc dt f loc).2.prec = dt.prec) := by
  unfold H5T__ref_set_loc
  by_cases hg : loc = dt.loc ∧ f = dt.f
  · rw [if_pos hg]
    exact Or.inr ⟨rfl, rfl⟩
  · rw [if_neg hg]
    cases loc <;> (try cases f) <;> (repeat' split) <;> simp

/-- C2: a successful transition of a generic-kind reference datatype to
the disk location sets the datatype size to the maximum of (4-byte length
field + encode header + the container's blob-id width) and the trial
encode size of a zeroed fixed reference of kind Object-v2 carrying the
container's token size. -/
theorem ref_set_loc_disk_generic_size (dt : H5T_ref_state) (fv : H5F)
    (st : H5T_ref_state)
    (hk : dt.rtype = H5R_OBJECT2 ∨ dt.rtype = H5R_DATASET_REGION2 ∨ dt.rtype = H5R_ATTR)
    (h : H5T__ref_set_loc dt (some fv) H5T_loc.disk = (some true, st)) :
    st.size = max (H5_SIZEOF_UINT32_T + H5R_ENCODE_HEADER_SIZE + fv.blobIdSize)
      (H5R_encode_size_probe { type := H5R_OBJECT2, token_size := fv.tokenSize }) := by
  have h0 : ¬(dt.rtype = H5R_OBJECT1) := by
    rcases hk with hk | hk | hk <;> rw [hk] <;> decide
  have h1 : ¬(dt.rtype = H5R_DATASET_REGION1) := by
    rcases hk with hk | hk | hk <;> rw [hk] <;> decide
  have h2 : st = (H5T__ref_set_loc dt (some fv) H5T_loc.disk).2 :=
    (congrArg Prod.snd h).symm
  by_cases hg : H5T_loc.disk = dt.loc ∧ some fv = dt.f
  · exfalso
    have hfst : (H5T__ref_set_loc dt (some fv) H5T_loc.disk).1 = some false := by
      unfold H5T__ref_set_loc
      rw [if_pos hg]
    rw [h] at hfst
    exact absurd hfst (by simp)
  · by_cases hc : fv.contInfoOk
    · rw [h2]
      unfold H5T__ref_set_loc
      rw [if_neg hg]
      simp [h0, h1, hc]
    · exfalso
      have hfst : (H5T__ref_set_loc dt (some fv) H5T_loc.disk).1 = none := by
        unfold H5T__ref_set_loc
        rw [if_neg hg]
        simp [h0, h1, hc]
      rw [h] at hfst
      exact absurd hfst (by simp)

/-- C2 witness: a concrete generic descriptor moved to disk on a concrete
container. -/
theorem ref_set_loc_disk_generic_size_witness :
    ((⟨H5T_loc.memory, none, 2, true, 64, 512, none, none, none⟩ : H5T_ref_state).rtype
        = H5R_OBJECT2 ∨
      (⟨H5T_loc.memory, none, 2, true, 64, 512, none, none, none⟩ : H5T_ref_state).rtype
        = H5R_DATASET_REGION2 ∨
      (⟨H5T_loc.memory, none, 2, true, 64, 512, none, none, none⟩ : H5T_ref_state).rtype
        = H5R_ATTR) ∧
    (H5T__ref_set_loc ⟨H5T_loc.memory, none, 2, true, 64, 512, none, none, none⟩
        (some ⟨1, 1, 8, 12, 16, 8, true⟩) H5T_loc.disk).2.size
      = max (H5_SIZEOF_UINT32_T + H5R_ENCODE_HEADER_SIZE + 16)
        (H5R_encode_size_probe { type := H5R_OBJECT2, token_size := 8 }) :=
  ⟨Or.inl (by decide),
    ref_set_loc_disk_generic_size
      ⟨H5T_loc.memory, none, 2, true, 64, 512, none, none, none⟩
      ⟨1, 1, 8, 12, 16, 8, true⟩ _ (Or.inl (by decide)) (by decide)⟩

/-- C6 counterexample: transitioning a descriptor whose size is 64 to the
undetermined (badloc) location succeeds, but leaves the size at 64 — the
active width is not cleared, contrary to the claim. -/
theorem ref_set_loc_badloc_width_not_cleared :
    (H5T__ref_set_loc ⟨H5T_loc.memory, none, 2, true, 64, 512,
        some FuncId.memGetsize, some FuncId.memRead, some FuncId.memWrite⟩
        none H5T_loc.badloc).1 = some true ∧
    (H5T__ref_set_loc ⟨H5T_loc.memory, none, 2, true, 64, 512,
        some FuncId.memGetsize, some FuncId.memRead, some FuncId.memWrite⟩
        none H5T_loc.badloc).2.size = 64 ∧
    (H5T__ref_set_loc ⟨H5T_loc.memory, none, 2, true, 64, 512,
        some FuncId.memGetsize, some FuncId.memRead, some FuncId.memWrite⟩
        none H5T_loc.badloc).2.size ≠ 0 := by
  decide

/-- C6 (amended): a non-trivial transition to the undetermined (badloc)
location succeeds ("changed"), clears the bound container and all three
bound converter functions to null, and leaves the size and precision
fields unchanged. -/
theorem ref_set_loc_badloc_clears_bindings (dt : H5T_ref_state) (f : Option H5F)
    (h : ¬(H5T_loc.badloc = dt.loc ∧ f = dt.f)) :
    H5T__ref_set_loc dt f H5T_loc.badloc =
      (some true, { dt with
        loc := H5T_loc.badloc, f := none,
        getsize := none, read := none, write := none }) := by
  unfold H5T__ref_set_loc
  rw [if_neg h]

/-- C6 witness: the amended statement applied to a concrete memory-located
descriptor. -/
theorem ref_set_loc_badloc_clears_bindings_witness :
    (¬(H5T_loc.badloc = (⟨H5T_loc.memory, none, 2, true, 64, 512,
        some FuncId.memGetsize, some FuncId.memRead, some FuncId.memWrite⟩
          : H5T_ref_state).loc ∧
      (none : Option H5F) = (⟨H5T_loc.memory, none, 2, true, 64, 512,
        some FuncId.memGetsize, some FuncId.memRead, some FuncId.memWrite⟩
          : H5T_ref_state).f)) ∧
    H5T__ref_set_loc ⟨H5T_loc.memory, none, 2, true, 64, 512,
        some FuncId.memGetsize, some FuncId.memRead, some FuncId.memWrite⟩
        none H5T_loc.badloc =
      (some true, ⟨H5T_loc.badloc, none, 2, true, 64, 512, none, none, none⟩) :=
  ⟨by decide,
    (ref_set_loc_badloc_clears_bindings
      ⟨H5T_loc.memory, none, 2, true, 64, 512,
        some FuncId.memGetsize, some FuncId.memRead, some FuncId.memWrite⟩
      none (by decide)).trans (by decide)⟩

/-- C7: when the requested location and container already match the
descriptor, H5T__ref_set_loc returns "unchanged" and leaves the whole
descriptor state (bound triple, width, location, container) exactly as it
was; and whenever a call returns a success verdict while the state it
leaves differs from the initial one, that verdict is "changed". -/
theorem ref_set_loc_noop_spec (dt : H5T_ref_state) (f : Option H5F) (loc : H5T_loc) :
    ((loc = dt.loc ∧ f = dt.f) → H5T__ref_set_loc dt f loc = (some false, dt)) ∧
    (∀ b st, H5T__ref_set_loc dt f loc = (some b, st) → st ≠ dt → b = true) := by
  constructor
  · intro h
    unfold H5T__ref_set_loc
    rw [if_pos h]
  · intro b st heq hne
    by_cases hg : loc = dt.loc ∧ f = dt.f
    · exfalso
      have h1 : H5T__ref_set_loc dt f loc = (some false, dt) := by
        unfold H5T__ref_set_loc
        rw [if_pos hg]
      rw [heq] at h1
      have h2 : st = dt := congrArg Prod.snd h1
      exact hne h2
    · have h1 := set_loc_ne_false dt f loc hg
      rw [heq] at h1
      cases b with
      | false => exact absurd rfl h1
      | true => rfl

/-- C7 witness: identical arguments yield "unchanged" and an untouched
descriptor. -/
theorem ref_set_loc_noop_spec_witness :
    (H5T_loc.memory = (⟨H5T_loc.memory, none, 2, true, 64, 512,
        some FuncId.memGetsize, some FuncId.memRead, some FuncId.memWrite⟩
          : H5T_ref_state).loc ∧
      (none : Option H5F) = (⟨H5T_loc.memory, none, 2, true, 64, 512,
        some FuncId.memGetsize, some FuncId.memRead, some FuncId.memWrite⟩
          : H5T_ref_state).f) ∧
    H5T__ref_set_loc ⟨H5T_loc.memory, none, 2, true, 64, 512,
        some FuncId.memGetsize, some FuncId.memRead, some FuncId.memWrite⟩
        none H5T_loc.memory =
      (some false, ⟨H5T_loc.memory, none, 2, true, 64, 512,
        some FuncId.memGetsize, some FuncId.memRead, some FuncId.memWrite⟩) :=
  ⟨⟨by decide, by decide⟩,
    (ref_set_loc_noop_spec
      ⟨H5T_loc.memory, none, 2, true, 64, 512,
        some FuncId.memGetsize, some FuncId.memRead, some FuncId.memWrite⟩
      none H5T_loc.memory).1 ⟨by decide, by decide⟩⟩

/-- C10: every successful H5T__ref_set_loc call either went through a
branch that assigns a datatype size — and every such branch also sets the
precision to exactly 8 times that size — or left both the size and the
precision fields untouched. -/
theorem ref_set_loc_prec_eq_8_size (dt : H5T_ref_state) (f : Option H5F)
    (loc : H5T_loc) (b : Bool) (st : H5T_ref_state)
    (h : H5T__ref_set_loc dt f loc = (some b, st)) :
    st.prec = 8 * st.size ∨ (st.size = dt.size ∧ st.prec = dt.prec) := by
  have h2 : st = (H5T__ref_set_loc dt f loc).2 := (congrArg Prod.snd h).symm
  rw [h2]
  exact set_loc_prec_aux dt f loc

/-- C10 witness: a concrete memory transition whose branch assigns a
size, with the precision equal to 8 times the size afterwards. -/
theorem ref_set_loc_prec_eq_8_size_witness :
    H5T__ref_set_loc ⟨H5T_loc.badloc, none, 2, true, 0, 0, none, none, none⟩
        none H5T_loc.memory =
      (some true,
        (H5T__ref_set_loc ⟨H5T_loc.badloc, none, 2, true, 0, 0, none, none, none⟩
          none H5T_loc.memory).2) ∧
    ((H5T__ref_set_loc ⟨H5T_loc.badloc, none, 2, true, 0, 0, none, none, none⟩
        none H5T_loc.memory).2.prec =
      8 * (H5T__ref_set_loc ⟨H5T_loc.badloc, none, 2, true, 0, 0, none, none, none⟩
        none H5T_loc.memory).2.size ∨
      ((H5T__ref_set_loc ⟨H5T_loc.badloc, none, 2, true, 0, 0, none, none, none⟩
          none H5T_loc.memory).2.size = 0 ∧
        (H5T__ref_set_loc ⟨H5T_loc.badloc, none, 2, true, 0, 0, none, none, none⟩
          none H5T_loc.memory).2.prec = 0)) :=
  ⟨by decide,
    ref_set_loc_prec_eq_8_size ⟨H5T_loc.badloc, none, 2, true, 0, 0, none, none, none⟩
      none H5T_loc.memory true _ (by decide)⟩

/- ------------------------------------------------------------------ -/
/- Memory-side converter (H5T__ref_mem_getsize, src/H5Tref.c)          -/
/- ------------------------------------------------------------------ -/

/-- The in-memory reference handle (struct href) with the fields this
layer uses: the kind tag, the file resolved from its `loc_id` (`none`
when H5VL_vol_object / H5VL_object_data fail), and the cached encode
size (0 until first computed). -/
structure href where
  type : Int
  locFile : Option H5F
  encode_size : Nat
deriving DecidableEq

/-- H5T__ref_mem_getsize: retrieves the size of a memory based
reference.  `encodeSz` stands for `H5R__encode` probed with a null
destination buffer (handle and flags to size, `none` = encode failure;
the body of H5R__encode is outside src/).  Returns `none` on error, or
`some (size, dst_copy, trial)` where `trial` records whether a full
trial encode was performed. -/
def H5T__ref_mem_getsize (encodeSz : href → Nat → Option Nat)
    (src_ref : href) (dst_f : H5F) (dst_copy0 : Bool) :
    Option (Nat × Bool × Bool) :=
  match src_ref.locFile with
  | none => none
  | some src_f =>
    let flags : Nat := if src_f.sharedId ≠ dst_f.sharedId then H5R_IS_EXTERNAL else 0
    if flags ≠ 0 ∨ src_ref.encode_size = 0 then
      match encodeSz src_ref flags with
      | none => none
      | some sz => some (sz, dst_copy0, true)
    else
      some (src_ref.encode_size,
        (if src_ref.type = H5R_OBJECT2 then true else dst_copy0), false)

/-- C4: when the handle resolves to a file sharing the destination
container (non-external) and carries a non-zero cached encode size, the
memory-side size-query returns the cached size without a trial encode
and reports direct-copy eligibility exactly for the Object-v2 variant;
when the handle is external or its cached size is zero, it performs the
full trial encode (null destination buffer) and returns its size. -/
theorem ref_mem_getsize_cached_spec (encodeSz : href → Nat → Option Nat)
    (r : href) (srcF dstF : H5F) (hres : r.locFile = some srcF) :
    ((srcF.sharedId = dstF.sharedId ∧ r.encode_size ≠ 0) →
      H5T__ref_mem_getsize encodeSz r dstF false
        = some (r.encode_size, (if r.type = H5R_OBJECT2 then true else false), false)) ∧
    ((srcF.sharedId ≠ dstF.sharedId ∨ r.encode_size = 0) →
      H5T__ref_mem_getsize encodeSz r dstF false
        = match encodeSz r (if srcF.sharedId ≠ dstF.sharedId then H5R_IS_EXTERNAL else 0) with
          | none => none
          | some sz => some (sz, false, true)) := by
  constructor
  · intro h
    simp [H5T__ref_mem_getsize, hres, h.1, h.2]
  · intro hor
    rcases hor with h1 | h1
    · simp [H5T__ref_mem_getsize, hres, h1, H5R_IS_EXTERNAL]
    · simp [H5T__ref_mem_getsize, hres, h1]

/-- C4 witness: a cached, non-external Object-v2 handle hits the cached
path with the direct-copy flag set. -/
theorem ref_mem_getsize_cached_spec_witness :
    (⟨2, some ⟨1, 7, 8, 12, 16, 8, true⟩, 12⟩ : href).locFile
        = some ⟨1, 7, 8, 12, 16, 8, true⟩ ∧
    ((⟨1, 7, 8, 12, 16, 8, true⟩ : H5F).sharedId
        = (⟨1, 7, 8, 12, 16, 8, true⟩ : H5F).sharedId ∧
      (⟨2, some ⟨1, 7, 8, 12, 16, 8, true⟩, 12⟩ : href).encode_size ≠ 0) ∧
    H5T__ref_mem_getsize (fun _ _ => some 99)
        ⟨2, some ⟨1, 7, 8, 12, 16, 8, true⟩, 12⟩ ⟨1, 7, 8, 12, 16, 8, true⟩ false
      = some (12, true, false) :=
  ⟨rfl, ⟨rfl, by decide⟩, by
    exact (ref_mem_getsize_cached_spec (fun _ _ => some 99)
      ⟨2, some ⟨1, 7, 8, 12, 16, 8, true⟩, 12⟩
      ⟨1, 7, 8, 12, 16, 8, true⟩ ⟨1, 7, 8, 12, 16, 8, true⟩ rfl).1 ⟨rfl, by decide⟩⟩

/- ------------------------------------------------------------------ -/
/- Disk-side converter (H5T__ref_disk_*, src/H5Tref.c)                 -/
/- ------------------------------------------------------------------ -/

/-- H5T__ref_disk_getsize: retrieves the length of a disk based
reference from the record bytes.  Reads the kind byte and the flags
byte; fails (BadValue, modelled as `none`) when the kind cast to
H5R_type_t is outside (H5R_BADTYPE, H5R_MAXTYPE); returns the whole
source size with the direct-copy flag set when the external flag is
clear and the kind is Object-v2; otherwise decodes the 4-byte length
after the flags byte and adds the header size, leaving the direct-copy
flag as the caller initialized it. -/
def H5T__ref_disk_getsize (src : List Nat) (src_size : Nat) (dst_copy0 : Bool) :
    Option (Nat × Bool) :=
  let ref_type : Int := (src.getD 0 0 : Int)
  if ref_type ≤ H5R_BADTYPE ∨ H5R_MAXTYPE ≤ ref_type then none
  else
    let flags : Nat := src.getD 1 0
    if flags &&& H5R_IS_EXTERNAL = 0 ∧ ref_type = H5R_OBJECT2 then
      some (src_size, true)
    else
      some (decLE 4 (src.drop 2) + H5R_ENCODE_HEADER_SIZE, dst_copy0)

/-- C3: the generic disk size-query fails when the kind byte is outside
the valid enumerated range; when the external flag is clear and the kind
is Object-v2 it returns the record's total source size with the
direct-copy flag set; in every other valid case it returns the 4-byte
length decoded after the flags byte plus the header size, leaving the
direct-copy flag unset (as initialized by the caller). -/
theorem ref_disk_getsize_spec (src : List Nat) (src_size : Nat) (d0 : Bool) :
    ((H5R_MAXTYPE ≤ (src.getD 0 0 : Int)) →
      H5T__ref_disk_getsize src src_size d0 = none) ∧
    (((src.getD 0 0 : Int) < H5R_MAXTYPE) →
      (src.getD 1 0 &&& H5R_IS_EXTERNAL = 0 ∧ (src.getD 0 0 : Int) = H5R_OBJECT2) →
      H5T__ref_disk_getsize src src_size d0 = some (src_size, true)) ∧
    (((src.getD 0 0 : Int) < H5R_MAXTYPE) →
      ¬(src.getD 1 0 &&& H5R_IS_EXTERNAL = 0 ∧ (src.getD 0 0 : Int) = H5R_OBJECT2) →
      H5T__ref_disk_getsize src src_size d0
        = some (decLE 4 (src.drop 2) + H5R_ENCODE_HEADER_SIZE, d0)) := by
  have hlow : ¬((src.getD 0 0 : Int) ≤ H5R_BADTYPE) := by
    unfold H5R_BADTYPE
    omega
  refine ⟨?_, ?_, ?_⟩
  · intro h
    unfold H5T__ref_disk_getsize
    rw [if_pos (Or.inr h)]
  · intro h1 h2
    unfold H5T__ref_disk_getsize
    rw [if_neg (by push_neg; exact ⟨by omega, by omega⟩)]
    rw [if_pos h2]
  · intro h1 h2
    unfold H5T__ref_disk_getsize
    rw [if_neg (by push_neg; exact ⟨by omega, by omega⟩)]
    rw [if_neg h2]

/-- C3 witness: a record with a valid non-Object kind (3 = Region-v2)
takes the length-decoding path. -/
theorem ref_disk_getsize_spec_witness :
    (([3, 0, 7, 0, 0, 0].getD 0 0 : Int) < H5R_MAXTYPE) ∧
    ¬([3, 0, 7, 0, 0, 0].getD 1 0 &&& H5R_IS_EXTERNAL = 0 ∧
      (([3, 0, 7, 0, 0, 0].getD 0 0 : Int) = H5R_OBJECT2)) ∧
    H5T__ref_disk_getsize [3, 0, 7, 0, 0, 0] 20 false = some (9, false) :=
  ⟨by decide, by decide, by
    exact (ref_disk_getsize_spec [3, 0, 7, 0, 0, 0] 20 false).2.2
      (by decide) (by decide)⟩

/-- H5T__ref_disk_read: reads the disk based reference into a buffer.
Copies the 2-byte header verbatim, skips the 4-byte length of the
sequence, and retrieves the blob through `blobGet` (H5VL_blob_get:
blob-id bytes to retrieved payload and retrieved length, `none` =
failure).  Fails with CantGet when the blob cannot be retrieved, and
with SizeMismatch when the retrieved length differs from the
destination capacity minus the header size. -/
def H5T__ref_disk_read (blobGet : List Nat → Option (List Nat × Nat))
    (src : List Nat) (dst_size : Nat) : RefOut :=
  match blobGet ((src.drop H5R_ENCODE_HEADER_SIZE).drop H5_SIZEOF_UINT32_T) with
  | none => RefOut.err RefErr.cantGet
  | some (payload, ret_size) =>
    if ret_size ≠ dst_size - H5R_ENCODE_HEADER_SIZE then RefOut.err RefErr.sizeMismatch
    else RefOut.ok (src.take H5R_ENCODE_HEADER_SIZE ++ payload)

/-- C5: the generic disk read fails with a get error when the blob
cannot be retrieved, and fails with a size-mismatch error — instead of
returning a (truncated or overflowing) buffer — when the blob is
retrieved but its length differs from the destination capacity minus
the header size. -/
theorem ref_disk_read_error_spec (blobGet : List Nat → Option (List Nat × Nat))
    (src : List Nat) (dst_size : Nat)
    (hcap : H5R_ENCODE_HEADER_SIZE ≤ dst_size) :
    (blobGet ((src.drop H5R_ENCODE_HEADER_SIZE).drop H5_SIZEOF_UINT32_T) = none →
      H5T__ref_disk_read blobGet src dst_size = RefOut.err RefErr.cantGet) ∧
    (∀ payload ret_size,
      blobGet ((src.drop H5R_ENCODE_HEADER_SIZE).drop H5_SIZEOF_UINT32_T)
        = some (payload, ret_size) →
      ret_size ≠ dst_size - H5R_ENCODE_HEADER_SIZE →
      H5T__ref_disk_read blobGet src dst_size = RefOut.err RefErr.sizeMismatch) := by
  constructor
  · intro h
    unfold H5T__ref_disk_read
    rw [h]
  · intro payload ret_size h hne
    unfold H5T__ref_disk_read
    rw [h]
    simp [hne]

/-- C5 witness: a failing blob lookup yields the get error, and a
retrieved length disagreeing with the capacity yields the mismatch
error, on concrete records. -/
theorem ref_disk_read_error_spec_witness :
    H5R_ENCODE_HEADER_SIZE ≤ 10 ∧
    H5T__ref_disk_read (fun _ => none) [2, 0, 3, 0, 0, 0, 9, 9] 10
      = RefOut.err RefErr.cantGet ∧
    H5T__ref_disk_read (fun _ => some ([7, 7, 7], 3)) [2, 0, 3, 0, 0, 0, 9, 9] 10
      = RefOut.err RefErr.sizeMismatch :=
  ⟨by decide,
    (ref_disk_read_error_spec (fun _ => none) [2, 0, 3, 0, 0, 0, 9, 9] 10
      (by decide)).1 rfl,
    (ref_disk_read_error_spec (fun _ => some ([7, 7, 7], 3)) [2, 0, 3, 0, 0, 0, 9, 9] 10
      (by decide)).2 [7, 7, 7] 3 rfl (by decide)⟩

/-- A call into the Blob Store made by the disk-side write converter. -/
inductive BlobEvent
  | delete (id : List Nat)
  | put (payload : List Nat)
deriving DecidableEq

/-- Blob Store behaviour supplied to the write converter: whether the
DELETE of given id bytes succeeds, whether the put of a payload succeeds,
and the blob id the put writes into the destination record. -/
structure BlobOracle where
  deleteOk : List Nat → Bool
  putOk : List Nat → Bool
  putId : List Nat → List Nat

/-- H5T__ref_disk_write: writes the disk based reference from a buffer.
When a background buffer (the previous record) is present, it first
advances it by the 4-byte length of the reference only and issues a
Blob Store DELETE on the remaining bytes, failing with CantRemove (and
doing nothing else) if the DELETE fails.  It then copies the 2-byte
header, encodes the 4-byte payload length, and stores the remaining
source bytes as a blob whose id is written after the length field,
failing with CantSet if the put fails.  The second component lists the
Blob Store calls issued, in order. -/
def H5T__ref_disk_write (ora : BlobOracle) (src : List Nat) (src_size : Nat)
    (bg : Option (List Nat)) : RefOut × List BlobEvent :=
  let put_step (ev : List BlobEvent) : RefOut × List BlobEvent :=
    let hdr := src.take H5R_ENCODE_HEADER_SIZE
    let payload_len := src_size - H5R_ENCODE_HEADER_SIZE
    let payload := (src.drop H5R_ENCODE_HEADER_SIZE).take payload_len
    if ora.putOk payload then
      (RefOut.ok (hdr ++ encLE H5_SIZEOF_UINT32_T payload_len ++ ora.putId payload),
        ev ++ [BlobEvent.put payload])
    else (RefOut.err RefErr.cantSet, ev ++ [BlobEvent.put payload])
  match bg with
  | none => put_step []
  | some p_bg =>
    let del_id := p_bg.drop H5_SIZEOF_UINT32_T
    if ora.deleteOk del_id then put_step [BlobEvent.delete del_id]
    else (RefOut.err RefErr.cantRemove, [BlobEvent.delete del_id])

/-- C1: evaluation of the overwrite path on a record previously produced
by H5T__ref_disk_write itself.  The first conjunct fixes the previous
record (header, 4-byte length, then the blob id stored by put); the
trace shows exactly one DELETE strictly before the single put, and no
put when the DELETE fails — but the DELETE is issued on the previous
record's bytes from offset 4 onward, which differ from the record's
blob locator as located by H5T__ref_disk_read and by the put of
H5T__ref_disk_write (offset header + 4): the DELETE starts two bytes
early, inside the length field. -/
theorem ref_disk_write_delete_misses_locator :
    (H5T__ref_disk_write
        ⟨fun _ => true, fun _ => true, fun _ => [1, 0, 0, 0, 5, 0, 0, 0, 0, 0, 0, 0, 0, 0, 0, 0]⟩
        [2, 0, 7, 7, 7] 5 none).1
      = RefOut.ok [2, 0, 3, 0, 0, 0, 1, 0, 0, 0, 5, 0, 0, 0, 0, 0, 0, 0, 0, 0, 0, 0] ∧
    (H5T__ref_disk_write
        ⟨fun _ => true, fun _ => true, fun _ => [1, 0, 0, 0, 5, 0, 0, 0, 0, 0, 0, 0, 0, 0, 0, 0]⟩
        [2, 0, 8, 8, 8] 5
        (some [2, 0, 3, 0, 0, 0, 1, 0, 0, 0, 5, 0, 0, 0, 0, 0, 0, 0, 0, 0, 0, 0])).2
      = [BlobEvent.delete
          ([2, 0, 3, 0, 0, 0, 1, 0, 0, 0, 5, 0, 0, 0, 0, 0, 0, 0, 0, 0, 0, 0].drop 4),
         BlobEvent.put [8, 8, 8]] ∧
    (([2, 0, 3, 0, 0, 0, 1, 0, 0, 0, 5, 0, 0, 0, 0, 0, 0, 0, 0, 0, 0, 0].drop
        H5R_ENCODE_HEADER_SIZE).drop H5_SIZEOF_UINT32_T
      = [1, 0, 0, 0, 5, 0, 0, 0, 0, 0, 0, 0, 0, 0, 0, 0]) ∧
    ([2, 0, 3, 0, 0, 0, 1, 0, 0, 0, 5, 0, 0, 0, 0, 0, 0, 0, 0, 0, 0, 0].drop 4
      ≠ ([2, 0, 3, 0, 0, 0, 1, 0, 0, 0, 5, 0, 0, 0, 0, 0, 0, 0, 0, 0, 0, 0].drop
          H5R_ENCODE_HEADER_SIZE).drop H5_SIZEOF_UINT32_T) ∧
    (H5T__ref_disk_write
        ⟨fun _ => false, fun _ => true, fun _ => [1, 0, 0, 0, 5, 0, 0, 0, 0, 0, 0, 0, 0, 0, 0, 0]⟩
        [2, 0, 8, 8, 8] 5
        (some [2, 0, 3, 0, 0, 0, 1, 0, 0, 0, 5, 0, 0, 0, 0, 0, 0, 0, 0, 0, 0, 0])).2
      = [BlobEvent.delete
          ([2, 0, 3, 0, 0, 0, 1, 0, 0, 0, 5, 0, 0, 0, 0, 0, 0, 0, 0, 0, 0, 0].drop 4)] ∧
    (H5T__ref_disk_write
        ⟨fun _ => false, fun _ => true, fun _ => [1, 0, 0, 0, 5, 0, 0, 0, 0, 0, 0, 0, 0, 0, 0, 0]⟩
        [2, 0, 8, 8, 8] 5
        (some [2, 0, 3, 0, 0, 0, 1, 0, 0, 0, 5, 0, 0, 0, 0, 0, 0, 0, 0, 0, 0, 0])).1
      = RefOut.err RefErr.cantRemove := by
  decide

end HDF5
